import Mathlib

/-!
Verification of the team-manage capacity-allocation and grant engine.

The Python services (`app/services/payment.py`, `app/services/warranty.py`,
`app/services/invite_record.py`) are shallowly embedded below: SQLAlchemy
tables become lists of records, the session becomes an explicit
committed/current pair, timestamps become integer seconds, and the external
capabilities (MD5, token decryption, the membership-invite HTTP call, the
storage layer's possible insert failure) become explicit parameters.
-/

namespace TM

/-! ## Python string primitives

`str.strip()` and `str.lower()` as used for e-mail / code normalization.
`lowerChar` models ASCII case folding of `str.lower`. -/

def isWS (c : Char) : Bool :=
  c == ' ' || c == '\t' || c == '\n' || c == '\r'

def lowerChar (c : Char) : Char :=
  if c = 'A' then 'a' else if c = 'B' then 'b' else if c = 'C' then 'c'
  else if c = 'D' then 'd' else if c = 'E' then 'e' else if c = 'F' then 'f'
  else if c = 'G' then 'g' else if c = 'H' then 'h' else if c = 'I' then 'i'
  else if c = 'J' then 'j' else if c = 'K' then 'k' else if c = 'L' then 'l'
  else if c = 'M' then 'm' else if c = 'N' then 'n' else if c = 'O' then 'o'
  else if c = 'P' then 'p' else if c = 'Q' then 'q' else if c = 'R' then 'r'
  else if c = 'S' then 's' else if c = 'T' then 't' else if c = 'U' then 'u'
  else if c = 'V' then 'v' else if c = 'W' then 'w' else if c = 'X' then 'x'
  else if c = 'Y' then 'y' else if c = 'Z' then 'z' else c

def plowerL (l : List Char) : List Char := l.map lowerChar

def pstripL (l : List Char) : List Char :=
  ((l.dropWhile isWS).reverse.dropWhile isWS).reverse

def plower (s : String) : String := ⟨plowerL s.data⟩

def pstrip (s : String) : String := ⟨pstripL s.data⟩

theorem lowerChar_spec (c : Char) :
    isWS (lowerChar c) = isWS c ∧ lowerChar (lowerChar c) = lowerChar c := by
  by_cases h1 : c = 'A'
  · subst h1; exact ⟨by decide, by decide⟩
  by_cases h2 : c = 'B'
  · subst h2; exact ⟨by decide, by decide⟩
  by_cases h3 : c = 'C'
  · subst h3; exact ⟨by decide, by decide⟩
  by_cases h4 : c = 'D'
  · subst h4; exact ⟨by decide, by decide⟩
  by_cases h5 : c = 'E'
  · subst h5; exact ⟨by decide, by decide⟩
  by_cases h6 : c = 'F'
  · subst h6; exact ⟨by decide, by decide⟩
  by_cases h7 : c = 'G'
  · subst h7; exact ⟨by decide, by decide⟩
  by_cases h8 : c = 'H'
  · subst h8; exact ⟨by decide, by decide⟩
  by_cases h9 : c = 'I'
  · subst h9; exact ⟨by decide, by decide⟩
  by_cases h10 : c = 'J'
  · subst h10; exact ⟨by decide, by decide⟩
  by_cases h11 : c = 'K'
  · subst h11; exact ⟨by decide, by decide⟩
  by_cases h12 : c = 'L'
  · subst h12; exact ⟨by decide, by decide⟩
  by_cases h13 : c = 'M'
  · subst h13; exact ⟨by decide, by decide⟩
  by_cases h14 : c = 'N'
  · subst h14; exact ⟨by decide, by decide⟩
  by_cases h15 : c = 'O'
  · subst h15; exact ⟨by decide, by decide⟩
  by_cases h16 : c = 'P'
  · subst h16; exact ⟨by decide, by decide⟩
  by_cases h17 : c = 'Q'
  · subst h17; exact ⟨by decide, by decide⟩
  by_cases h18 : c = 'R'
  · subst h18; exact ⟨by decide, by decide⟩
  by_cases h19 : c = 'S'
  · subst h19; exact ⟨by decide, by decide⟩
  by_cases h20 : c = 'T'
  · subst h20; exact ⟨by decide, by decide⟩
  by_cases h21 : c = 'U'
  · subst h21; exact ⟨by decide, by decide⟩
  by_cases h22 : c = 'V'
  · subst h22; exact ⟨by decide, by decide⟩
  by_cases h23 : c = 'W'
  · subst h23; exact ⟨by decide, by decide⟩
  by_cases h24 : c = 'X'
  · subst h24; exact ⟨by decide, by decide⟩
  by_cases h25 : c = 'Y'
  · subst h25; exact ⟨by decide, by decide⟩
  by_cases h26 : c = 'Z'
  · subst h26; exact ⟨by decide, by decide⟩
  have hc : lowerChar c = c := by
    unfold lowerChar
    rw [if_neg h1, if_neg h2, if_neg h3, if_neg h4, if_neg h5, if_neg h6,
      if_neg h7, if_neg h8, if_neg h9, if_neg h10, if_neg h11, if_neg h12,
      if_neg h13, if_neg h14, if_neg h15, if_neg h16, if_neg h17, if_neg h18,
      if_neg h19, if_neg h20, if_neg h21, if_neg h22, if_neg h23, if_neg h24,
      if_neg h25, if_neg h26]
  rw [hc]
  exact ⟨rfl, hc⟩

theorem lowerChar_isWS (c : Char) : isWS (lowerChar c) = isWS c :=
  (lowerChar_spec c).1

theorem lowerChar_idem (c : Char) : lowerChar (lowerChar c) = lowerChar c :=
  (lowerChar_spec c).2

theorem dropWhile_map_comm (f : Char → Char) (p : Char → Bool)
    (hf : ∀ c, p (f c) = p c) (l : List Char) :
    (l.map f).dropWhile p = (l.dropWhile p).map f := by
  induction l with
  | nil => rfl
  | cons a t ih =>
      simp only [List.map_cons, List.dropWhile_cons, hf a]
      by_cases h : p a = true
      · simp [h, ih]
      · simp [h]

theorem dropWhile_idem (p : Char → Bool) (l : List Char) :
    (l.dropWhile p).dropWhile p = l.dropWhile p := by
  induction l with
  | nil => rfl
  | cons a t ih =>
      by_cases h : p a = true
      · simp [List.dropWhile_cons, h, ih]
      · simp [List.dropWhile_cons, h]

theorem plowerL_pstripL_comm (l : List Char) :
    plowerL (pstripL l) = pstripL (plowerL l) := by
  unfold plowerL pstripL
  rw [dropWhile_map_comm lowerChar isWS lowerChar_isWS l,
    ← List.map_reverse, dropWhile_map_comm lowerChar isWS lowerChar_isWS,
    List.map_reverse]

theorem plowerL_idem (l : List Char) : plowerL (plowerL l) = plowerL l := by
  unfold plowerL
  rw [List.map_map]
  exact List.map_congr_left fun c _ => lowerChar_idem c

theorem dropWhile_of_head_not (p : Char → Bool) (a : Char) (t : List Char)
    (h : p a = false) : (a :: t).dropWhile p = a :: t := by
  simp [List.dropWhile_cons, h]

theorem dropWhile_fix_of_append (p : Char → Bool) (y z u : List Char)
    (hy : y.dropWhile p = y) (hu : z ++ u = y) : z.dropWhile p = z := by
  cases z with
  | nil => rfl
  | cons b s =>
      have hyform : y = b :: (s ++ u) := by rw [← hu]; rfl
      by_cases hb : p b = true
      · exfalso
        rw [hyform, List.dropWhile_cons, if_pos hb] at hy
        have hlen := (List.dropWhile_suffix (l := s ++ u) p).sublist.length_le
        have hcl := congrArg List.length hy
        simp only [List.length_cons, List.length_append] at hcl hlen
        omega
      · simp at hb
        exact dropWhile_of_head_not p b s hb

theorem pstripL_idem (l : List Char) : pstripL (pstripL l) = pstripL l := by
  unfold pstripL
  set y := l.dropWhile isWS with hy
  have hfixy : y.dropWhile isWS = y := by rw [hy]; exact dropWhile_idem isWS l
  obtain ⟨u, hu⟩ : ∃ u, u ++ y.reverse.dropWhile isWS = y.reverse :=
    List.dropWhile_suffix isWS
  have hdecomp : (y.reverse.dropWhile isWS).reverse ++ u.reverse = y := by
    have h2 := congrArg List.reverse hu
    rw [List.reverse_append, List.reverse_reverse] at h2
    exact h2
  have hfix : ((y.reverse.dropWhile isWS).reverse).dropWhile isWS
      = (y.reverse.dropWhile isWS).reverse :=
    dropWhile_fix_of_append isWS y _ u.reverse hfixy hdecomp
  rw [hfix, List.reverse_reverse, dropWhile_idem]

theorem normL_idem (l : List Char) :
    plowerL (pstripL (plowerL (pstripL l))) = plowerL (pstripL l) := by
  calc plowerL (pstripL (plowerL (pstripL l)))
      = pstripL (plowerL (plowerL (pstripL l))) :=
        plowerL_pstripL_comm (plowerL (pstripL l))
    _ = pstripL (plowerL (pstripL l)) := by rw [plowerL_idem]
    _ = pstripL (pstripL (plowerL l)) := by rw [plowerL_pstripL_comm]
    _ = pstripL (plowerL l) := pstripL_idem (plowerL l)
    _ = plowerL (pstripL l) := (plowerL_pstripL_comm l).symm

theorem plower_pstrip_norm_idem (s : String) :
    plower (pstrip (plower (pstrip s))) = plower (pstrip s) := by
  unfold plower pstrip
  exact congrArg String.mk (normL_idem s.data)

theorem plower_pstrip_ne_empty (s : String) (h : pstrip s ≠ "") :
    plower (pstrip s) ≠ "" := by
  intro hc
  apply h
  unfold plower at hc
  unfold pstrip at hc ⊢
  have : plowerL (pstripL s.data) = [] := congrArg String.data hc
  have hnil : pstripL s.data = [] := by
    cases hs : pstripL s.data with
    | nil => rfl
    | cons a t => rw [hs] at this; simp [plowerL] at this
  rw [hnil]

/-! ## Data model

Tables as lists of records.  Field names and types follow the SQLite schema
created in `app/db_migrations.py` together with the data model of the design
document (the SQLAlchemy `app/models.py` module is not part of the sources);
timestamps are integer seconds.  `invited_at` and `redeemed_at` are stored
non-null: every writer in the sources supplies a value
(`invited_at or get_now()` in `create_invite_record`). -/

structure Team where
  id : Nat
  team_name : String
  account_id : String
  status : String
  current_members : Nat
  max_members : Nat
  expires_at : Int
deriving DecidableEq

structure PaymentOrder where
  order_no : String
  trade_no : String
  email : String
  amount : String
  pay_type : String
  status : String
  product_name : String
  expires_at : Option Int
  created_at : Option Int
  paid_at : Option Int
  redeemed_at : Option Int
  team_id : Option Nat
deriving DecidableEq

structure InviteRecord where
  id : Nat
  email : String
  source_type : String
  source_code : Option String
  order_no : Option String
  pay_type : Option String
  amount : Option String
  trade_no : Option String
  team_id : Option Nat
  account_id : Option String
  is_warranty_redemption : Bool
  invited_at : Int
deriving DecidableEq

structure RedemptionRecord where
  id : Nat
  email : String
  code : String
  team_id : Option Nat
  account_id : Option String
  redeemed_at : Int
deriving DecidableEq

structure DB where
  teams : List Team
  orders : List PaymentOrder
  invites : List InviteRecord
  redemptions : List RedemptionRecord
deriving DecidableEq

/-- Python truthiness of an `Optional[str]`: `None` and `""` are falsy. -/
def truthyO : Option String → Bool
  | none => false
  | some s => !(s == "")

/-- `email.strip().lower() if email else None`. -/
def pyNormEmail : Option String → Option String
  | none => none
  | some s => if s == "" then none else some (plower (pstrip s))

/-- `code.strip() if code else None`. -/
def pyNormCode : Option String → Option String
  | none => none
  | some s => if s == "" then none else some (pstrip s)

/-- Outer join `InviteRecord.team_id == Team.id`. -/
def findTeam (teams : List Team) : Option Nat → Option Team
  | none => none
  | some i => teams.find? (fun t => t.id == i)

/-! ## Grant ledger service (`app/services/invite_record.py`) -/

def SUPPORTED_INVITE_SOURCE_TYPES : List String :=
  ["redeem_code", "payment", "after_sales", "admin_manual"]

structure CreateArgs where
  email : String
  source_type : String
  team_id : Option Nat
  account_id : Option String
  source_code : Option String
  order_no : Option String
  pay_type : Option String
  amount : Option String
  trade_no : Option String
  is_warranty_redemption : Bool
  invited_at : Option Int
deriving DecidableEq

structure CreateResult where
  success : Bool
  created : Bool
  record : Option InviteRecord
  error : Option String
deriving DecidableEq

/-- `InviteRecordService.create_invite_record`.  The session `add` is
modelled as appending to the list; `insertOk = false` models the storage
layer raising on the insert (the function's `except` branch).  `nextId` is
the autoincrement id handed out by the database.  A `SELECT` matching more
than one row makes `scalar_one_or_none` raise `MultipleResultsFound`, which
the `except` branch turns into an error result. -/
def create_invite_record (invites : List InviteRecord) (nextId : Nat)
    (now : Int) (insertOk : Bool) (a : CreateArgs) :
    List InviteRecord × CreateResult :=
  if ¬ (a.source_type ∈ SUPPORTED_INVITE_SOURCE_TYPES) then
    (invites, ⟨false, false, none, some "不支持的 source_type"⟩)
  else
    let record : InviteRecord :=
      { id := nextId, email := a.email, source_type := a.source_type,
        source_code := a.source_code, order_no := a.order_no,
        pay_type := a.pay_type, amount := a.amount, trade_no := a.trade_no,
        team_id := a.team_id, account_id := a.account_id,
        is_warranty_redemption := a.is_warranty_redemption,
        invited_at := a.invited_at.getD now }
    let ins : List InviteRecord × CreateResult :=
      if insertOk then (invites ++ [record], ⟨true, true, some record, none⟩)
      else (invites, ⟨false, false, none, some "创建邀请记录失败"⟩)
    if a.source_type = "payment" ∧ truthyO a.order_no then
      match invites.filter
          (fun r => r.source_type == "payment" && r.order_no == a.order_no) with
      | [] => ins
      | [r] => (invites, ⟨true, false, some r, none⟩)
      | _ => (invites, ⟨false, false, none, some "创建邀请记录失败"⟩)
    else ins

/-- The payment-source dedup invariant of the ledger: at most one entry with
`source_type = "payment"` per distinct truthy `order_no`. -/
def paymentDedup (l : List InviteRecord) : Prop :=
  ∀ o : String, o ≠ "" →
    (l.filter (fun r => r.source_type == "payment" && r.order_no == some o)).length ≤ 1

/-! ## Warranty service (`app/services/warranty.py`) -/

structure Snapshot where
  email : String
  source_type : String
  code : Option String
  order_no : Option String
  invited_at : Int
  team_id : Option Nat
  team_name : Option String
  team_status : Option String
  team_expires_at : Option Int
deriving DecidableEq

def snapOfInvite (teams : List Team) (r : InviteRecord) : Snapshot :=
  let tm := findTeam teams r.team_id
  { email := r.email, source_type := r.source_type, code := r.source_code,
    order_no := r.order_no, invited_at := r.invited_at, team_id := r.team_id,
    team_name := tm.map (fun t => t.team_name),
    team_status := tm.map (fun t => t.status),
    team_expires_at := tm.map (fun t => t.expires_at) }

def snapOfRedemption (teams : List Team) (r : RedemptionRecord) : Snapshot :=
  let tm := findTeam teams r.team_id
  { email := r.email, source_type := "redeem_code", code := some r.code,
    order_no := none, invited_at := r.redeemed_at, team_id := r.team_id,
    team_name := tm.map (fun t => t.team_name),
    team_status := tm.map (fun t => t.status),
    team_expires_at := tm.map (fun t => t.expires_at) }

/-- `True` when `b` sorts strictly later than `a` under
`ORDER BY invited_at DESC, id DESC`. -/
def laterInv (a b : InviteRecord) : Bool :=
  a.invited_at < b.invited_at || (a.invited_at == b.invited_at && a.id < b.id)

/-- `ORDER BY invited_at DESC, id DESC LIMIT 1`. -/
def pickLatest : List InviteRecord → Option InviteRecord
  | [] => none
  | r :: rest => some (rest.foldl (fun acc x => if laterInv acc x then x else acc) r)

def laterRed (a b : RedemptionRecord) : Bool :=
  a.redeemed_at < b.redeemed_at || (a.redeemed_at == b.redeemed_at && a.id < b.id)

/-- `ORDER BY redeemed_at DESC, id DESC LIMIT 1` on the legacy table. -/
def pickLatestRed : List RedemptionRecord → Option RedemptionRecord
  | [] => none
  | r :: rest => some (rest.foldl (fun acc x => if laterRed acc x then x else acc) r)

/-- The `WHERE` clause of the anchor query for an email:
`lower(trim(email)) = normalized ∧ source_type ∈ {redeem_code, payment}`. -/
def anchorMatch (e : String) (r : InviteRecord) : Bool :=
  plower (pstrip r.email) == e &&
    (r.source_type == "redeem_code" || r.source_type == "payment")

/-- `WarrantyService._get_original_invite_snapshot`. -/
def _get_original_invite_snapshot (db : DB) (email code : Option String) :
    Option Snapshot :=
  let ne := pyNormEmail email
  let nc := pyNormCode code
  if truthyO ne then
    let e := ne.getD ""
    match pickLatest (db.invites.filter (anchorMatch e)) with
    | some r => some (snapOfInvite db.teams r)
    | none =>
        match pickLatestRed
            (db.redemptions.filter (fun r => plower (pstrip r.email) == e)) with
        | some rr => some (snapOfRedemption db.teams rr)
        | none => none
  else if truthyO nc then
    let c := nc.getD ""
    match pickLatest (db.invites.filter
        (fun r => r.source_type == "redeem_code" && r.source_code == some c)) with
    | some r => some (snapOfInvite db.teams r)
    | none =>
        match pickLatestRed (db.redemptions.filter (fun r => r.code == c)) with
        | some rr => some (snapOfRedemption db.teams rr)
        | none => none
  else none

/-- `WarrantyService._get_current_invite_snapshot`. -/
def _get_current_invite_snapshot (db : DB) (email : Option String) :
    Option Snapshot :=
  let ne := pyNormEmail email
  if truthyO ne then
    let e := ne.getD ""
    match pickLatest (db.invites.filter (fun r =>
        plower (pstrip r.email) == e &&
          (r.source_type == "redeem_code" || r.source_type == "payment" ||
            r.source_type == "after_sales"))) with
    | some r => some (snapOfInvite db.teams r)
    | none => none
  else none

def THIRTY_DAYS : Int := 30 * 86400

structure Judgement where
  status : String
  can_reuse : Bool
  warranty_valid : Bool
  expires_at : Option Int
  message : String
deriving DecidableEq

/-- `WarrantyService._judge_after_sales`. -/
def _judge_after_sales (now : Int) (invited_at : Option Int)
    (team_status : Option String) : Judgement :=
  match invited_at with
  | none => ⟨"unknown", false, false, none, "邀请时间缺失，无法判定售后状态"⟩
  | some t =>
      let expires := t + THIRTY_DAYS
      if now > expires then
        ⟨"expired", false, false, some expires, "售后已过期（超过30天）"⟩
      else if team_status = some "banned" then
        ⟨"after_sales_available", true, true, some expires,
          "可售后：30天内且所在 Team 已被封"⟩
      else
        ⟨"normal", false, true, some expires, "状态正常：所在 Team 未被封"⟩

structure ReuseResult where
  success : Bool
  can_reuse : Bool
  reason : Option String
  error : Option String
deriving DecidableEq

/-- `WarrantyService.validate_warranty_reuse`. -/
def validate_warranty_reuse (db : DB) (now : Int) (code email : String) :
    ReuseResult :=
  let ne : Option String := if email == "" then none
    else some (plower (pstrip email))
  match _get_original_invite_snapshot db ne none with
  | none => ⟨true, false, some "未找到邀请记录", none⟩
  | some orig =>
      let lookup := if truthyO ne then ne else some (plower (pstrip orig.email))
      let cur := (_get_current_invite_snapshot db lookup).getD orig
      let j := _judge_after_sales now (some orig.invited_at) cur.team_status
      if j.status = "expired" then
        ⟨true, false, some "售后已过期（超过30天）", none⟩
      else if ¬ (cur.team_status = some "banned") then
        ⟨true, false, some "所在 Team 未被封，状态正常", none⟩
      else
        let origCode := pstrip (orig.code.getD "")
        let reqCode := pstrip code
        if ¬ (orig.source_type = "redeem_code") ∨ origCode = "" then
          ⟨true, false, some "原始邀请不是兑换码来源，无法自动重兑", none⟩
        else if ¬ (origCode = reqCode) then
          ⟨true, false, some ("仅支持原始邀请使用的兑换码: " ++ origCode), none⟩
        else
          ⟨true, true, some "30天内且所在 Team 已被封，可售后", none⟩

structure BannedTeam where
  team_id : Option Nat
  team_name : Option String
  email : String
  banned_at : Option Int
deriving DecidableEq

structure WRecord where
  code : String
  has_warranty : Bool
  warranty_valid : Bool
  warranty_expires_at : Option Int
  status : String
  status_reason : String
  can_reuse : Bool
  used_at : Option Int
  team_id : Option Nat
  team_name : Option String
  team_status : Option String
  team_expires_at : Option Int
  email : String
  source_type : String
deriving DecidableEq

structure WarrantyStatus where
  success : Bool
  error : Option String
  has_warranty : Bool
  warranty_valid : Bool
  warranty_expires_at : Option Int
  banned_teams : List BannedTeam
  can_reuse : Bool
  original_code : Option String
  records : List WRecord
  message : Option String
deriving DecidableEq

/-- Body of `check_warranty_status` after argument normalization. -/
def checkWarrantyBody (db : DB) (now : Int) (ne nc : Option String) :
    WarrantyStatus :=
  match _get_original_invite_snapshot db ne nc with
  | none => ⟨true, none, false, false, none, [], false, none, [],
      some "未找到相关邀请记录"⟩
  | some orig =>
      let lookup := if truthyO ne then ne else some (plower (pstrip orig.email))
      let cur := (_get_current_invite_snapshot db lookup).getD orig
      let j := _judge_after_sales now (some orig.invited_at) cur.team_status
      let source_code := orig.code
      let display_code := match source_code with
        | some s => if s == "" then "-" else s
        | none => "-"
      let original_code := if orig.source_type = "redeem_code" then source_code
        else none
      let record : WRecord :=
        { code := display_code, has_warranty := true,
          warranty_valid := j.warranty_valid,
          warranty_expires_at := j.expires_at, status := j.status,
          status_reason := j.message, can_reuse := j.can_reuse,
          used_at := some orig.invited_at, team_id := cur.team_id,
          team_name := cur.team_name, team_status := cur.team_status,
          team_expires_at := cur.team_expires_at, email := cur.email,
          source_type := orig.source_type }
      let banned : List BannedTeam :=
        if cur.team_status = some "banned" then
          [⟨cur.team_id, cur.team_name, cur.email, none⟩]
        else []
      ⟨true, none, true, j.warranty_valid, j.expires_at, banned, j.can_reuse,
        original_code, [record], some j.message⟩

/-- `WarrantyService.check_warranty_status`. -/
def check_warranty_status (db : DB) (now : Int) (email code : Option String) :
    WarrantyStatus :=
  if !truthyO email && !truthyO code then
    ⟨false, some "必须提供邮箱或兑换码", false, false, none, [], false, none,
      [], none⟩
  else checkWarrantyBody db now (pyNormEmail email) (pyNormCode code)

/-! ## Payment service (`app/services/payment.py`)

The SQLAlchemy session is a committed/current pair: mutations touch
`cur`, `commit` publishes them, `rollback` restores the last committed
state.  The external capabilities (MD5, token decryption, the
membership-invite HTTP call, and whether the ledger insert succeeds at the
storage layer) are the `Ext` parameters. -/

structure Session where
  committed : DB
  cur : DB
deriving DecidableEq

def Session.commit (s : Session) : Session := ⟨s.cur, s.cur⟩

def Session.rollback (s : Session) : Session := ⟨s.committed, s.committed⟩

structure NotifyParams where
  pid : String
  trade_no : String
  out_trade_no : String
  ptype : String
  name : String
  money : String
  trade_status : String
  sign : String
deriving DecidableEq

structure Ext where
  md5 : String → String
  decryptOk : Bool
  sendInviteOk : Bool
  ledgerInsertOk : Bool

/-- The fixed-order concatenation verified by `PaymentService._verify_sign`
(`ptype` models the event's `type` field). -/
def notify_sign_str (p : NotifyParams) (key : String) : String :=
  "money=" ++ p.money ++ "&name=" ++ p.name ++ "&out_trade_no=" ++
    p.out_trade_no ++ "&pid=" ++ p.pid ++ "&trade_no=" ++ p.trade_no ++
    "&trade_status=" ++ p.trade_status ++ "&type=" ++ p.ptype ++ key

/-- `PaymentService._verify_sign`. -/
def _verify_sign (md5 : String → String) (p : NotifyParams) (key : String) :
    Bool :=
  p.sign == md5 (notify_sign_str p key)

/-- Modelled from the spec: `redeem_flow_service.select_team_auto` is not
among the sources; design §4.2 step 1 queries resources with
`status = active ∧ current_occupancy < max_capacity` ordered by soonest
`expires_at` ascending and picks the top candidate. -/
def select_team_auto (teams : List Team) : Option Nat :=
  match teams.filter (fun t =>
      t.status == "active" && decide (t.current_members < t.max_members)) with
  | [] => none
  | t :: rest =>
      some ((rest.foldl
        (fun acc x => if x.expires_at < acc.expires_at then x else acc) t).id)

structure InviteResult where
  success : Bool
  team_id : Option Nat
  team_name : Option String
  account_id : Option String
  error : Option String
deriving DecidableEq

def updateTeamIn (db : DB) (t : Team) : DB :=
  { db with teams := db.teams.map (fun x => if x.id == t.id then t else x) }

def updateOrderIn (db : DB) (o : PaymentOrder) : DB :=
  { db with orders :=
      db.orders.map (fun x => if x.order_no == o.order_no then o else x) }

def findOrder (orders : List PaymentOrder) (no : String) : Option PaymentOrder :=
  orders.find? (fun o => o.order_no == no)

/-- The database autoincrement id for the next inserted ledger row. -/
def nextInviteId (invites : List InviteRecord) : Nat :=
  invites.foldl (fun m r => max m r.id) 0 + 1

/-- `PaymentService._invite_user_to_team`.  Note that the occupancy
increment is committed here, before the caller writes the ledger entry. -/
def _invite_user_to_team (ext : Ext) (sess : Session) :
    Session × InviteResult :=
  match select_team_auto sess.cur.teams with
  | none => (sess, ⟨false, none, none, none, some "没有可用的Team"⟩)
  | some tid =>
      match sess.cur.teams.find? (fun t => t.id == tid) with
      | none => (sess, ⟨false, none, none, none, some "Team 不存在"⟩)
      | some team =>
          if ¬ (team.status = "active") then
            (sess, ⟨false, none, none, none, some "Team 状态异常"⟩)
          else if team.max_members ≤ team.current_members then
            (sess, ⟨false, none, none, none, some "Team 已满"⟩)
          else if ¬ (ext.decryptOk = true) then
            (sess, ⟨false, none, none, none, some "系统解密失败"⟩)
          else if ¬ (ext.sendInviteOk = true) then
            (sess, ⟨false, none, none, none, some "邀请失败"⟩)
          else
            let t1 := { team with current_members := team.current_members + 1 }
            let t2 := if t1.max_members ≤ t1.current_members then
                { t1 with status := "full" } else t1
            let sess1 := Session.commit { sess with cur := updateTeamIn sess.cur t2 }
            (sess1, ⟨true, some tid, some team.team_name,
              some team.account_id, none⟩)

structure NotifyResult where
  success : Bool
  message : Option String
  error : Option String
  invite : Option InviteResult
deriving DecidableEq

/-- `PaymentService.handle_notify`.  `key` is the configured `mapay_key`
(empty when unconfigured); `now` is `get_now()`. -/
def handle_notify (ext : Ext) (key : String) (now : Int) (p : NotifyParams)
    (sess : Session) : Session × NotifyResult :=
  if ¬ (p.trade_status = "TRADE_SUCCESS") then
    (sess, ⟨false, none, some "支付状态非成功", none⟩)
  else if key = "" then
    (sess, ⟨false, none, some "支付配置不完整", none⟩)
  else if ¬ (_verify_sign ext.md5 p key = true) then
    (sess, ⟨false, none, some "签名验证失败", none⟩)
  else if p.out_trade_no = "" then
    (sess, ⟨false, none, some "缺少订单号", none⟩)
  else
    match findOrder sess.cur.orders p.out_trade_no with
    | none => (sess, ⟨false, none, some "订单不存在", none⟩)
    | some order =>
        if order.status = "paid" then
          (sess, ⟨true, some "订单已处理", none, none⟩)
        else if ¬ (order.status = "pending") then
          (sess, ⟨false, none, some "订单状态异常", none⟩)
        else
          let o1 :=
            { order with
              status := "paid", trade_no := p.trade_no, paid_at := some now }
          let sess1 := Session.commit { sess with cur := updateOrderIn sess.cur o1 }
          let pr := _invite_user_to_team ext sess1
          let sess2 := pr.1
          let inv := pr.2
          if inv.success then
            let o2 :=
              { o1 with
                status := "redeemed", redeemed_at := some now,
                team_id := inv.team_id }
            let db3 := updateOrderIn sess2.cur o2
            let cr := create_invite_record db3.invites (nextInviteId db3.invites)
              now ext.ledgerInsertOk
              { email := order.email, source_type := "payment",
                team_id := inv.team_id, account_id := inv.account_id,
                source_code := none, order_no := some order.order_no,
                pay_type := some order.pay_type, amount := some order.amount,
                trade_no := some o2.trade_no, is_warranty_redemption := false,
                invited_at := some now }
            let sess3 : Session := { sess2 with cur := { db3 with invites := cr.1 } }
            if ¬ (cr.2.success = true) then
              (Session.rollback sess3, ⟨false, none, cr.2.error, none⟩)
            else
              (Session.commit sess3, ⟨true, some "支付成功", none, some inv⟩)
          else
            (sess2, ⟨true, some "支付成功", none, some inv⟩)

/-- The plain-text body answered by the `/payment/notify` route. -/
def payment_notify_response (r : NotifyResult) : String :=
  if r.success then "success" else "fail"

structure OrderStatusResult where
  success : Bool
  error : Option String
  order_no : Option String
  status : Option String
  amount : Option String
  email : Option String
  pay_type : Option String
  created_at : Option Int
  paid_at : Option Int
  team_id : Option Nat
deriving DecidableEq

def mkOrderStatusResp (o : PaymentOrder) : OrderStatusResult :=
  ⟨true, none, some o.order_no, some o.status, some o.amount, some o.email,
    some o.pay_type, o.created_at, o.paid_at, o.team_id⟩

/-- `PaymentService.get_order_status` on the orders table. -/
def get_order_status (now : Int) (orders : List PaymentOrder)
    (order_no : String) : List PaymentOrder × OrderStatusResult :=
  match findOrder orders order_no with
  | none => (orders, ⟨false, some "订单不存在", none, none, none, none, none,
      none, none, none⟩)
  | some order =>
      let isExpired : Bool := (order.status == "pending") &&
        (match order.expires_at with
          | some t => decide (now > t)
          | none => false)
      if isExpired then
        let o' := { order with status := "expired" }
        (orders.map (fun x => if x.order_no == o'.order_no then o' else x),
          mkOrderStatusResp o')
      else (orders, mkOrderStatusResp order)

/-! ## Invite statistics (`app/services/invite_record.py`)

Instants are integer seconds; midnight flooring, `weekday()` (Monday = 0,
1970-01-01 was a Thursday) and `replace(day=1)` follow the proleptic
Gregorian calendar via the standard civil-from-days algorithm. -/

def todayStart (now : Int) : Int := now - now % 86400

def pyWeekday (t : Int) : Int := (t / 86400 + 3) % 7

def weekStart (now : Int) : Int :=
  todayStart now - 86400 * pyWeekday (todayStart now)

/-- Day-of-month (1-based) of the civil date containing instant `t`. -/
def dayOfMonth (t : Int) : Int :=
  let z := t / 86400 + 719468
  let doe := z % 146097
  let yoe := (doe - doe / 1460 + doe / 36524 - doe / 146096) / 365
  let doy := doe - (365 * yoe + yoe / 4 - yoe / 100)
  let mp := (5 * doy + 2) / 153
  doy - (153 * mp + 2) / 5 + 1

/-- `today_start.replace(day=1)`. -/
def monthStart (now : Int) : Int :=
  todayStart now - 86400 * (dayOfMonth (todayStart now) - 1)

/-- Days since the epoch of a civil date (for parsing `%Y-%m-%d`). -/
def daysFromCivil (y m d : Nat) : Int :=
  let yi : Int := if m ≤ 2 then (y : Int) - 1 else (y : Int)
  let era := yi / 400
  let yoe := yi - era * 400
  let mp : Int := if 2 < m then (m : Int) - 3 else (m : Int) + 9
  let doy := (153 * mp + 2) / 5 + (d : Int) - 1
  let doe := yoe * 365 + yoe / 4 - yoe / 100 + doy
  era * 146097 + doe - 719468

/-- `datetime.strptime(s, "%Y-%m-%d")` as an instant at midnight. -/
def parseDate (s : String) : Option Int :=
  match (s.splitOn "-").map String.toNat? with
  | [some y, some m, some d] =>
      if 1 ≤ m ∧ m ≤ 12 ∧ 1 ≤ d ∧ d ≤ 31 then
        some (86400 * daysFromCivil y m d)
      else none
  | _ => none

/-- `InviteRecordService._parse_date_start`. -/
def _parse_date_start : Option String → Option Int
  | none => none
  | some s => if s == "" then none else parseDate s

/-- `InviteRecordService._parse_date_end` (start of the following day). -/
def _parse_date_end : Option String → Option Int
  | none => none
  | some s => if s == "" then none else (parseDate s).map (fun t => t + 86400)

/-- `needle` starts `hay`. -/
def startsSeq : List Char → List Char → Bool
  | _, [] => true
  | [], _ :: _ => false
  | a :: t, b :: s => a == b && startsSeq t s

/-- `needle` occurs contiguously inside `hay`. -/
def containsSeq : List Char → List Char → Bool
  | [], needle => needle.isEmpty
  | a :: t, needle => startsSeq (a :: t) needle || containsSeq t needle

/-- SQL `ILIKE '%pat%'`: case-insensitive containment. -/
def ilikeContains (field pat : String) : Bool :=
  containsSeq (plowerL field.data) (plowerL pat.data)

structure FilterArgs where
  email : Option String
  source_code : Option String
  order_no : Option String
  team_id : Option Nat
  source_type : Option String
  start_date : Option String
  end_date : Option String

/-- `InviteRecordService._build_filters` as a row predicate (an `ILIKE`
against a `NULL` column matches nothing; falsy arguments add no filter). -/
def _build_filters (a : FilterArgs) (r : InviteRecord) : Bool :=
  (match a.email with
    | some e => if e == "" then true else ilikeContains r.email e
    | none => true) &&
  (match a.source_code with
    | some p' => if p' == "" then true else
        (match r.source_code with
          | some sc => ilikeContains sc p'
          | none => false)
    | none => true) &&
  (match a.order_no with
    | some p' => if p' == "" then true else
        (match r.order_no with
          | some ono => ilikeContains ono p'
          | none => false)
    | none => true) &&
  (match a.team_id with
    | some i => if i == 0 then true else r.team_id == some i
    | none => true) &&
  (match a.source_type with
    | some st => if SUPPORTED_INVITE_SOURCE_TYPES.contains st then
        r.source_type == st else true
    | none => true) &&
  (match _parse_date_start a.start_date with
    | some t => decide (t ≤ r.invited_at)
    | none => true) &&
  (match _parse_date_end a.end_date with
    | some t => decide (r.invited_at < t)
    | none => true)

structure Stats where
  total : Nat
  today : Nat
  this_week : Nat
  this_month : Nat
deriving DecidableEq

/-- `InviteRecordService.get_invite_stats` (the counters of the returned
`stats` dict). -/
def get_invite_stats (db : DB) (now : Int) (a : FilterArgs) : Stats :=
  let rows := (db.invites.filter (_build_filters a)).map
    (fun r => r.invited_at)
  let ts := todayStart now
  let ws := weekStart now
  let ms := monthStart now
  { total := rows.length,
    today := rows.countP (fun t => decide (ts ≤ t)),
    this_week := rows.countP (fun t => decide (ws ≤ t)),
    this_month := rows.countP (fun t => decide (ms ≤ t)) }

/-! ## Theorems -/

/-- Claim C4: for an anchor grant time `t` and current team status `s`, the
after-sales judgement is `expired` (not reusable) exactly when `now`
is strictly past `t +` 30 days, `after_sales_available` (reusable) exactly
when within the window with a banned team, `normal` (not reusable) exactly
when within the window with a non-banned team, and `unknown` (not reusable)
when the anchor time is missing; the returned expiry is exactly `t +` the
fixed 30-day constant. -/
theorem claim4_judge_after_sales (now t : Int) (s : Option String) :
    ((_judge_after_sales now (some t) s).status = "expired" ↔
      t + 30 * 86400 < now) ∧
    ((_judge_after_sales now (some t) s).status = "after_sales_available" ↔
      (now ≤ t + 30 * 86400 ∧ s = some "banned")) ∧
    ((_judge_after_sales now (some t) s).status = "normal" ↔
      (now ≤ t + 30 * 86400 ∧ ¬ (s = some "banned"))) ∧
    ((_judge_after_sales now (some t) s).can_reuse = true ↔
      (now ≤ t + 30 * 86400 ∧ s = some "banned")) ∧
    ((_judge_after_sales now (some t) s).expires_at = some (t + 30 * 86400)) ∧
    ((_judge_after_sales now none s).status = "unknown") ∧
    ((_judge_after_sales now none s).can_reuse = false) := by
  unfold _judge_after_sales THIRTY_DAYS
  by_cases h1 : now > t + 30 * 86400
  · simp only [if_pos h1]
    refine ⟨?_, ?_, ?_, ?_, ?_, ?_, ?_⟩ <;>
      first | trivial | (simp_all; try omega)
  · simp only [if_neg h1]
    by_cases h2 : s = some "banned"
    · simp only [if_pos h2]
      refine ⟨?_, ?_, ?_, ?_, ?_, ?_, ?_⟩ <;>
        first | trivial | (simp_all; try omega)
    · simp only [if_neg h2]
      refine ⟨?_, ?_, ?_, ?_, ?_, ?_, ?_⟩ <;>
        first | trivial | (simp_all; try omega)

theorem weekStart_le_todayStart (now : Int) : weekStart now ≤ todayStart now := by
  unfold weekStart pyWeekday todayStart
  omega

theorem dayOfMonth_pos (t : Int) : 1 ≤ dayOfMonth t := by
  have key : ∀ doy : Int,
      1 ≤ doy - (153 * ((5 * doy + 2) / 153) + 2) / 5 + 1 := by
    intro doy
    omega
  unfold dayOfMonth
  exact key _

theorem monthStart_le_todayStart (now : Int) :
    monthStart now ≤ todayStart now := by
  have h := dayOfMonth_pos (todayStart now)
  unfold monthStart
  omega

/-- Claim C9: for every database state and filter arguments, the counters of
`get_invite_stats` satisfy `today ≤ this_week`, `today ≤ this_month`,
`this_week ≤ total` and `this_month ≤ total`, because the computed start of
today is never earlier than the computed week or month start and every
window only counts filtered rows. -/
theorem claim9_stats_monotone (db : DB) (now : Int) (a : FilterArgs) :
    (get_invite_stats db now a).today ≤ (get_invite_stats db now a).this_week ∧
    (get_invite_stats db now a).today ≤ (get_invite_stats db now a).this_month ∧
    (get_invite_stats db now a).this_week ≤ (get_invite_stats db now a).total ∧
    (get_invite_stats db now a).this_month ≤ (get_invite_stats db now a).total := by
  have hws := weekStart_le_todayStart now
  have hms := monthStart_le_todayStart now
  unfold get_invite_stats
  refine ⟨?_, ?_, ?_, ?_⟩
  · exact List.countP_mono_left (fun x _ hx => by
      simp only [decide_eq_true_eq] at hx ⊢
      omega)
  · exact List.countP_mono_left (fun x _ hx => by
      simp only [decide_eq_true_eq] at hx ⊢
      omega)
  · exact List.countP_le_length _
  · exact List.countP_le_length _

/-- Claim C3: unless the event has `trade_status = "TRADE_SUCCESS"` and its
`sign` equals the MD5 of the fixed-order concatenation
`money…name…out_trade_no…pid…trade_no…trade_status…type` suffixed with the
secret key, `handle_notify` leaves the session untouched (no order field, no
ledger entry, no occupancy) and returns failure. -/
theorem claim3_reject_before_mutation (ext : Ext) (key : String) (now : Int)
    (p : NotifyParams) (sess : Session)
    (h : ¬ (p.trade_status = "TRADE_SUCCESS" ∧
      p.sign = ext.md5 (notify_sign_str p key))) :
    (handle_notify ext key now p sess).1 = sess ∧
    (handle_notify ext key now p sess).2.success = false := by
  unfold handle_notify
  by_cases h1 : p.trade_status = "TRADE_SUCCESS"
  · have h2 : ¬ (p.sign = ext.md5 (notify_sign_str p key)) :=
      fun hs => h ⟨h1, hs⟩
    by_cases hk : key = ""
    · simp [h1, hk]
    · have hv : _verify_sign ext.md5 p key = false := by
        unfold _verify_sign
        simp [h2]
      simp [h1, hk, hv]
  · simp [h1]

/-- Claim C3 witness: a concrete event with `trade_status = "WAIT"` is
rejected with the session unchanged. -/
theorem claim3_witness :
    (¬ (("WAIT" : String) = "TRADE_SUCCESS" ∧
      ("x" : String) = (fun _ => "S") (notify_sign_str
        ⟨"1", "t", "o", "alipay", "n", "1.00", "WAIT", "x"⟩ "k"))) ∧
    (handle_notify ⟨fun _ => "S", true, true, true⟩ "k" 0
      ⟨"1", "t", "o", "alipay", "n", "1.00", "WAIT", "x"⟩
      ⟨⟨[], [], [], []⟩, ⟨[], [], [], []⟩⟩).2.success = false := by
  refine ⟨by simp, ?_⟩
  exact (claim3_reject_before_mutation ⟨fun _ => "S", true, true, true⟩ "k" 0
    ⟨"1", "t", "o", "alipay", "n", "1.00", "WAIT", "x"⟩
    ⟨⟨[], [], [], []⟩, ⟨[], [], [], []⟩⟩ (by simp)).2

/-- Claim C8: reading an order through `get_order_status` turns `pending`
into `expired` exactly when `now` is strictly past the order's `expires_at`;
a pending order read at or before `expires_at`, a pending order without an
expiry, and an order in any other status are all returned unchanged, the
response echoing the stored fields. -/
theorem claim8_order_expiry (now : Int) (orders : List PaymentOrder)
    (no : String) (o : PaymentOrder) (h : findOrder orders no = some o) :
    (o.status = "pending" → ∀ t, o.expires_at = some t →
      ((t < now →
        get_order_status now orders no =
          (orders.map (fun x => if x.order_no == o.order_no then
              { o with status := "expired" } else x),
            mkOrderStatusResp { o with status := "expired" })) ∧
       (now ≤ t →
        get_order_status now orders no = (orders, mkOrderStatusResp o)))) ∧
    (o.status = "pending" → o.expires_at = none →
      get_order_status now orders no = (orders, mkOrderStatusResp o)) ∧
    (¬ (o.status = "pending") →
      get_order_status now orders no = (orders, mkOrderStatusResp o) ∧
      (get_order_status now orders no).2.status = some o.status) := by
  unfold get_order_status
  rw [h]
  refine ⟨?_, ?_, ?_⟩
  · intro hp t het
    constructor
    · intro hlt
      simp [hp, het, hlt]
    · intro hge
      have : ¬ (now > t) := by omega
      simp [hp, het, this]
  · intro hp hnone
    simp [hp, hnone]
  · intro hnp
    have hb : (o.status == "pending") = false := by
      simp [hnp]
    simp [hb, mkOrderStatusResp]

/-- Claim C8 witness: a concrete pending order with `expires_at = 100` read
at `now = 101` comes back `expired`, and at `now = 100` stays `pending`. -/
theorem claim8_witness :
    (findOrder [⟨"O1", "", "u@x.com", "9.90", "alipay", "pending", "P",
        some 100, some 0, none, none, none⟩] "O1" =
      some ⟨"O1", "", "u@x.com", "9.90", "alipay", "pending", "P",
        some 100, some 0, none, none, none⟩) ∧
    (get_order_status 101 [⟨"O1", "", "u@x.com", "9.90", "alipay", "pending",
        "P", some 100, some 0, none, none, none⟩] "O1").2.status =
      some "expired" ∧
    (get_order_status 100 [⟨"O1", "", "u@x.com", "9.90", "alipay", "pending",
        "P", some 100, some 0, none, none, none⟩] "O1").2.status =
      some "pending" := by
  have h : findOrder [⟨"O1", "", "u@x.com", "9.90", "alipay", "pending", "P",
      some 100, some 0, none, none, none⟩] "O1" =
      some ⟨"O1", "", "u@x.com", "9.90", "alipay", "pending", "P",
        some 100, some 0, none, none, none⟩ := by decide
  refine ⟨h, ?_, ?_⟩
  · have := ((claim8_order_expiry 101 _ "O1" _ h).1 rfl 100 rfl).1 (by omega)
    rw [this]
    rfl
  · have := ((claim8_order_expiry 100 _ "O1" _ h).1 rfl 100 rfl).2 (by omega)
    rw [this]
    rfl

theorem length_le_one_mem_eq {α : Type} (l : List α) (r : α) (hr : r ∈ l)
    (hl : l.length ≤ 1) : l = [r] := by
  cases l with
  | nil => cases hr
  | cons a t =>
      cases t with
      | nil =>
          simp at hr
          rw [hr]
      | cons b s => simp at hl

/-- Claim C5 counterexample: the dedup guard tests Python truthiness, so for
the non-null but empty `order_no = ""` a second payment append inserts a
duplicate instead of returning the existing entry. -/
theorem claim5_counterexample :
    (create_invite_record
        [⟨1, "u@x.com", "payment", none, some "", none, none, none, some 1,
          none, false, 0⟩] 2 5 true
        ⟨"u@x.com", "payment", some 1, none, none, some "", none, none, none,
          false, none⟩).2.created = true ∧
    (create_invite_record
        [⟨1, "u@x.com", "payment", none, some "", none, none, none, some 1,
          none, false, 0⟩] 2 5 true
        ⟨"u@x.com", "payment", some 1, none, none, some "", none, none, none,
          false, none⟩).1.length = 2 := by
  constructor
  · rfl
  · rfl

/-- Claim C5 (amended: "non-null" must be read as non-empty, i.e. truthy):
on a ledger satisfying the payment dedup invariant, appending with
`source_type = "payment"` and a non-empty `order_no` already present returns
success with `created = false` and the existing record while inserting
nothing, and any such append preserves the invariant that at most one
payment entry exists per distinct non-empty `order_no`. -/
theorem claim5_payment_dedup (invites : List InviteRecord) (nid : Nat)
    (now : Int) (insertOk : Bool) (a : CreateArgs) (o : String)
    (hdep : paymentDedup invites) (hst : a.source_type = "payment")
    (ho : a.order_no = some o) (hne : o ≠ "") :
    (∀ r ∈ invites, r.source_type = "payment" → r.order_no = some o →
      create_invite_record invites nid now insertOk a =
        (invites, ⟨true, false, some r, none⟩)) ∧
    paymentDedup (create_invite_record invites nid now insertOk a).1 := by
  have htru : truthyO (some o) = true := by
    simp [truthyO, hne]
  constructor
  · intro r hr hrt hro
    have hflt : invites.filter
        (fun x => x.source_type == "payment" && x.order_no == some o) = [r] := by
      apply length_le_one_mem_eq
      · simp [List.mem_filter, hr, hrt, hro]
      · exact hdep o hne
    simp only [create_invite_record, hst, ho]
    simp [hflt, htru, SUPPORTED_INVITE_SOURCE_TYPES]
  · cases hflt : invites.filter
        (fun x => x.source_type == "payment" && x.order_no == some o) with
    | nil =>
        cases hins : insertOk with
        | false =>
            have hres : (create_invite_record invites nid now false a).1 =
                invites := by
              simp only [create_invite_record, hst, ho]
              simp [hflt, htru, SUPPORTED_INVITE_SOURCE_TYPES]
            rw [hres]
            exact hdep
        | true =>
            have hres : (create_invite_record invites nid now true a).1 =
                invites ++ [⟨nid, a.email, "payment", a.source_code,
                  some o, a.pay_type, a.amount, a.trade_no, a.team_id,
                  a.account_id, a.is_warranty_redemption,
                  a.invited_at.getD now⟩] := by
              simp only [create_invite_record, hst, ho]
              simp [hflt, htru, SUPPORTED_INVITE_SOURCE_TYPES]
            rw [hres]
            intro o' ho'
            rw [List.filter_append, List.length_append]
            by_cases heq : o' = o
            · subst heq
              simp [hflt]
            · have hz : ([(⟨nid, a.email, "payment", a.source_code,
                  some o, a.pay_type, a.amount, a.trade_no, a.team_id,
                  a.account_id, a.is_warranty_redemption,
                  a.invited_at.getD now⟩ : InviteRecord)].filter
                  (fun x => x.source_type == "payment" &&
                    x.order_no == some o')).length = 0 := by
                simp
                intro hc
                exact absurd hc.symm heq
              rw [hz]
              have h2 := hdep o' ho'
              omega
    | cons r rest =>
        cases rest with
        | nil =>
            have hres : (create_invite_record invites nid now insertOk a).1 =
                invites := by
              simp only [create_invite_record, hst, ho]
              simp [hflt, htru, SUPPORTED_INVITE_SOURCE_TYPES]
            rw [hres]
            exact hdep
        | cons r2 rest2 =>
            have hres : (create_invite_record invites nid now insertOk a).1 =
                invites := by
              simp only [create_invite_record, hst, ho]
              simp [hflt, htru, SUPPORTED_INVITE_SOURCE_TYPES]
            rw [hres]
            exact hdep

/-- Claim C5 witness: with one payment entry for `ORD1` in the ledger, a
second payment append for `ORD1` is a no-op returning the existing record,
and the dedup invariant is preserved. -/
theorem claim5_witness :
    paymentDedup [⟨1, "u@x.com", "payment", none, some "ORD1", none, none,
      none, some 1, none, false, 0⟩] ∧
    create_invite_record
      [⟨1, "u@x.com", "payment", none, some "ORD1", none, none, none, some 1,
        none, false, 0⟩] 2 9 true
      ⟨"u@x.com", "payment", some 1, none, none, some "ORD1", none, none,
        none, false, none⟩ =
      ([⟨1, "u@x.com", "payment", none, some "ORD1", none, none, none, some 1,
        none, false, 0⟩],
       ⟨true, false, some ⟨1, "u@x.com", "payment", none, some "ORD1", none,
        none, none, some 1, none, false, 0⟩, none⟩) := by
  have hd : paymentDedup [⟨1, "u@x.com", "payment", none, some "ORD1", none,
      none, none, some 1, none, false, 0⟩] :=
    fun o _ => List.length_filter_le _ _
  refine ⟨hd, ?_⟩
  exact (claim5_payment_dedup _ 2 9 true _ "ORD1" hd rfl rfl
    (by decide)).1 _ (by simp) rfl rfl

/-! Concrete fixtures for the payment-notification claims. -/

def cexExt : Ext := ⟨fun _ => "S", true, true, true⟩

def cexExtNoLedger : Ext := ⟨fun _ => "S", true, true, false⟩

def cexP1 : NotifyParams :=
  ⟨"1", "T", "O1", "alipay", "n", "1.00", "TRADE_SUCCESS", "S"⟩

def cexOrderRedeemed : PaymentOrder :=
  ⟨"O1", "T", "u@x.com", "9.90", "alipay", "redeemed", "P", some 100, some 0,
    some 1, some 2, some 1⟩

def cexOrderPaid : PaymentOrder :=
  ⟨"O1", "T", "u@x.com", "9.90", "alipay", "paid", "P", some 100, some 0,
    some 1, none, none⟩

def cexOrderPending : PaymentOrder :=
  ⟨"O1", "", "u@x.com", "9.90", "alipay", "pending", "P", some 100, some 0,
    none, none, none⟩

def cexTeam : Team := ⟨1, "T1", "acc-1", "active", 0, 2, 1000⟩

def cexSessRedeemed : Session :=
  ⟨⟨[], [cexOrderRedeemed], [], []⟩, ⟨[], [cexOrderRedeemed], [], []⟩⟩

def cexSessPaid : Session :=
  ⟨⟨[], [cexOrderPaid], [], []⟩, ⟨[], [cexOrderPaid], [], []⟩⟩

def cexSessPending : Session :=
  ⟨⟨[cexTeam], [cexOrderPending], [], []⟩,
    ⟨[cexTeam], [cexOrderPending], [], []⟩⟩

/-- Claim C1 counterexample: a valid, correctly signed `TRADE_SUCCESS` event
for an order that is already `redeemed` makes `handle_notify` return
failure, so the notify endpoint answers `"fail"`, not `"success"` — the
claim's "already paid **or already redeemed** … returns success" is false
for the redeemed half (the state is still left unchanged). -/
theorem claim1_counterexample :
    (handle_notify cexExt "k" 0 cexP1 cexSessRedeemed).2.success = false ∧
    payment_notify_response
      (handle_notify cexExt "k" 0 cexP1 cexSessRedeemed).2 = "fail" ∧
    (handle_notify cexExt "k" 0 cexP1 cexSessRedeemed).1 = cexSessRedeemed := by
  refine ⟨rfl, rfl, rfl⟩

/-- Claim C1 (amended): for a valid, correctly signed `TRADE_SUCCESS` event
whose order is found, an order already `paid` yields a successful no-op (the
session, hence ledger and occupancies, unchanged; the endpoint answers
`"success"`), while an order already `redeemed` is also a no-op but returns
failure and the endpoint answers `"fail"`. -/
theorem claim1_notify_noop (ext : Ext) (key : String) (now : Int)
    (p : NotifyParams) (sess : Session) (o : PaymentOrder)
    (hts : p.trade_status = "TRADE_SUCCESS") (hk : ¬ (key = ""))
    (hs : p.sign = ext.md5 (notify_sign_str p key))
    (hno : ¬ (p.out_trade_no = ""))
    (hf : findOrder sess.cur.orders p.out_trade_no = some o) :
    (o.status = "paid" →
      handle_notify ext key now p sess =
        (sess, ⟨true, some "订单已处理", none, none⟩) ∧
      payment_notify_response (handle_notify ext key now p sess).2 =
        "success") ∧
    (o.status = "redeemed" →
      handle_notify ext key now p sess =
        (sess, ⟨false, none, some "订单状态异常", none⟩) ∧
      payment_notify_response (handle_notify ext key now p sess).2 =
        "fail") := by
  have hv : _verify_sign ext.md5 p key = true := by
    unfold _verify_sign
    simp [hs]
  constructor
  · intro hp
    have h1 : handle_notify ext key now p sess =
        (sess, ⟨true, some "订单已处理", none, none⟩) := by
      simp only [handle_notify]
      simp [hts, hk, hv, hno, hf, hp]
    exact ⟨h1, by rw [h1]; rfl⟩
  · intro hrd
    have hnpaid : ¬ (o.status = "paid") := by simp [hrd]
    have hnp : ¬ (o.status = "pending") := by simp [hrd]
    have h1 : handle_notify ext key now p sess =
        (sess, ⟨false, none, some "订单状态异常", none⟩) := by
      simp only [handle_notify]
      simp [hts, hk, hv, hno, hf, hnpaid, hnp]
    exact ⟨h1, by rw [h1]; rfl⟩

/-- Claim C1 witness: the amended theorem applied to a concrete `paid` order
(the event is valid and correctly signed; the call answers `"success"` and
leaves the session unchanged). -/
theorem claim1_witness :
    (cexP1.trade_status = "TRADE_SUCCESS" ∧ ¬ (("k" : String) = "") ∧
      cexP1.sign = cexExt.md5 (notify_sign_str cexP1 "k") ∧
      ¬ (cexP1.out_trade_no = "") ∧
      findOrder cexSessPaid.cur.orders cexP1.out_trade_no =
        some cexOrderPaid ∧
      cexOrderPaid.status = "paid") ∧
    handle_notify cexExt "k" 0 cexP1 cexSessPaid =
      (cexSessPaid, ⟨true, some "订单已处理", none, none⟩) := by
  refine ⟨⟨rfl, by decide, rfl, by decide, by decide, rfl⟩, ?_⟩
  exact ((claim1_notify_noop cexExt "k" 0 cexP1 cexSessPaid cexOrderPaid rfl
    (by decide) rfl (by decide) (by decide)).1 rfl).1

/-- Claim C2: the code violates ledger/occupancy atomicity.  Running the
grant path on a pending order with one active team while the ledger insert
fails leaves a committed state whose team occupancy was incremented (and
committed inside `_invite_user_to_team`) with no ledger entry — the
rollback after the failed ledger append cannot undo the earlier commit.
The order is left `paid` and the handler reports failure. -/
theorem claim2_atomicity_violation :
    ((handle_notify cexExtNoLedger "k" 50 cexP1 cexSessPending).1.committed.teams.map
      (fun t => t.current_members) = [1]) ∧
    ((handle_notify cexExtNoLedger "k" 50 cexP1 cexSessPending).1.committed.invites
      = []) ∧
    ((findOrder
        (handle_notify cexExtNoLedger "k" 50 cexP1 cexSessPending).1.committed.orders
        "O1").map (fun o => o.status) = some "paid") ∧
    ((handle_notify cexExtNoLedger "k" 50 cexP1 cexSessPending).2.success
      = false) := by
  refine ⟨rfl, rfl, rfl, rfl⟩

/-- Claim C10: `check_warranty_status` is invariant under leading/trailing
whitespace and letter case of its email argument: for every database state
and every email whose trimmed form is non-empty, querying with the raw email
and with its normalized (`strip().lower()`) form give identical results. -/
theorem claim10_email_normalization (db : DB) (now : Int) (email : String)
    (h : ¬ (pstrip email = "")) :
    check_warranty_status db now (some email) none =
      check_warranty_status db now (some (plower (pstrip email))) none := by
  have hne : ¬ (email = "") := by
    intro he
    apply h
    rw [he]
    rfl
  have hN : ¬ (plower (pstrip email) = "") := plower_pstrip_ne_empty email h
  have h1 : pyNormEmail (some email) = some (plower (pstrip email)) := by
    simp [pyNormEmail, hne]
  have h2 : pyNormEmail (some (plower (pstrip email))) =
      some (plower (pstrip email)) := by
    simp [pyNormEmail, hN, plower_pstrip_norm_idem]
  have g1 : truthyO (some email) = true := by simp [truthyO, hne]
  have g2 : truthyO (some (plower (pstrip email))) = true := by
    simp [truthyO, hN]
  unfold check_warranty_status
  rw [g1, g2, h1, h2]

/-- Claim C10 witness: querying with `" U@X.com "` equals querying with its
normalized form on a concrete database. -/
theorem claim10_witness :
    (¬ (pstrip " U@X.com " = "")) ∧
    check_warranty_status
      ⟨[⟨1, "T1", "acc-1", "banned", 1, 2, 1000⟩],
       [],
       [⟨1, "u@x.com", "redeem_code", some "abc", none, none, none, none,
         some 1, none, false, 0⟩],
       []⟩ 10 (some " U@X.com ") none =
    check_warranty_status
      ⟨[⟨1, "T1", "acc-1", "banned", 1, 2, 1000⟩],
       [],
       [⟨1, "u@x.com", "redeem_code", some "abc", none, none, none, none,
         some 1, none, false, 0⟩],
       []⟩ 10 (some (plower (pstrip " U@X.com "))) none := by
  refine ⟨by decide, ?_⟩
  exact claim10_email_normalization _ 10 " U@X.com " (by decide)

/-- `r` sorts at-or-after `x` under `ORDER BY invited_at DESC, id DESC`. -/
def invGe (r x : InviteRecord) : Prop :=
  x.invited_at < r.invited_at ∨ (x.invited_at = r.invited_at ∧ x.id ≤ r.id)

theorem invGe_refl (r : InviteRecord) : invGe r r := Or.inr ⟨rfl, le_refl _⟩

theorem invGe_trans {a b c : InviteRecord} (h1 : invGe a b) (h2 : invGe c a) :
    invGe c b := by
  unfold invGe at h1 h2 ⊢
  rcases h1 with h1 | ⟨h1, h1'⟩ <;> rcases h2 with h2 | ⟨h2, h2'⟩ <;> omega

theorem laterInv_true_invGe {a x : InviteRecord} (h : laterInv a x = true) :
    invGe x a := by
  unfold laterInv at h
  unfold invGe
  simp only [Bool.or_eq_true, Bool.and_eq_true, decide_eq_true_eq,
    beq_iff_eq] at h
  omega

theorem laterInv_false_invGe {a x : InviteRecord} (h : laterInv a x = false) :
    invGe a x := by
  unfold laterInv at h
  unfold invGe
  simp only [Bool.or_eq_false_iff, Bool.and_eq_false_iff,
    decide_eq_false_iff_not, beq_eq_false_iff_ne] at h
  rcases h with ⟨h1, h2 | h2⟩
  · omega
  · simp only [not_lt] at h1 h2
    omega

theorem pickFold_spec (l : List InviteRecord) (acc : InviteRecord) :
    (l.foldl (fun a x => if laterInv a x then x else a) acc = acc ∨
      l.foldl (fun a x => if laterInv a x then x else a) acc ∈ l) ∧
    invGe (l.foldl (fun a x => if laterInv a x then x else a) acc) acc ∧
    (∀ x ∈ l, invGe (l.foldl (fun a x => if laterInv a x then x else a) acc) x) := by
  induction l generalizing acc with
  | nil => exact ⟨Or.inl rfl, invGe_refl acc, by intro x hx; cases hx⟩
  | cons y t ih =>
      simp only [List.foldl_cons]
      by_cases hl : laterInv acc y = true
      · rw [if_pos hl]
        obtain ⟨hmem, hacc, hall⟩ := ih y
        refine ⟨?_, ?_, ?_⟩
        · rcases hmem with hm | hm
          · exact Or.inr (by rw [hm]; exact List.mem_cons_self y t)
          · exact Or.inr (List.mem_cons_of_mem y hm)
        · exact invGe_trans (laterInv_true_invGe hl) hacc
        · intro x hx
          rcases List.mem_cons.mp hx with hx | hx
          · rw [hx]; exact hacc
          · exact hall x hx
      · rw [if_neg hl]
        obtain ⟨hmem, hacc, hall⟩ := ih acc
        refine ⟨?_, ?_, ?_⟩
        · rcases hmem with hm | hm
          · exact Or.inl hm
          · exact Or.inr (List.mem_cons_of_mem y hm)
        · exact hacc
        · intro x hx
          rcases List.mem_cons.mp hx with hx | hx
          · rw [hx]
            exact invGe_trans (laterInv_false_invGe (by simpa using hl)) hacc
          · exact hall x hx

theorem pickLatest_spec (l : List InviteRecord) (r : InviteRecord)
    (h : pickLatest l = some r) : r ∈ l ∧ ∀ x ∈ l, invGe r x := by
  cases l with
  | nil => cases h
  | cons a t =>
      have hr : t.foldl (fun a x => if laterInv a x then x else a) a = r := by
        have := h
        unfold pickLatest at this
        exact Option.some_injective _ this
      obtain ⟨hmem, hacc, hall⟩ := pickFold_spec t a
      rw [hr] at hmem hacc hall
      constructor
      · rcases hmem with hm | hm
        · rw [hm]; exact List.mem_cons_self a t
        · exact List.mem_cons_of_mem a hm
      · intro x hx
        rcases List.mem_cons.mp hx with hx | hx
        · rw [hx]; exact hacc
        · exact hall x hx

theorem pickLatest_ne_none (l : List InviteRecord) (hl : l ≠ []) :
    ∃ r, pickLatest l = some r := by
  cases l with
  | nil => exact absurd rfl hl
  | cons a t => exact ⟨_, rfl⟩

/-- Claim C6: for an email whose normalized form is non-empty and whose
qualifying ledger entries (source_type `redeem_code` or `payment`, matching
email) are non-empty, the anchor chosen by `_get_original_invite_snapshot`
is a qualifying entry — hence never an `after_sales` or `admin_manual`
one — with the latest `invited_at`, ties broken by the largest `id`. -/
theorem claim6_anchor_selection (db : DB) (email : String)
    (hne : ¬ (plower (pstrip email) = ""))
    (hq : db.invites.filter (anchorMatch (plower (pstrip email))) ≠ []) :
    ∃ r ∈ db.invites.filter (anchorMatch (plower (pstrip email))),
      _get_original_invite_snapshot db (some email) none =
        some (snapOfInvite db.teams r) ∧
      (r.source_type = "redeem_code" ∨ r.source_type = "payment") ∧
      ¬ (r.source_type = "after_sales") ∧ ¬ (r.source_type = "admin_manual") ∧
      ∀ x ∈ db.invites.filter (anchorMatch (plower (pstrip email))),
        x.invited_at < r.invited_at ∨
          (x.invited_at = r.invited_at ∧ x.id ≤ r.id) := by
  have hemail : ¬ (email = "") := by
    intro he
    apply hne
    rw [he]
    rfl
  have hnorm : pyNormEmail (some email) = some (plower (pstrip email)) := by
    simp [pyNormEmail, hemail]
  have htr : truthyO (some (plower (pstrip email))) = true := by
    simp [truthyO, hne]
  obtain ⟨r, hr⟩ := pickLatest_ne_none _ hq
  obtain ⟨hmem, hmax⟩ := pickLatest_spec _ _ hr
  have hsnap : _get_original_invite_snapshot db (some email) none =
      some (snapOfInvite db.teams r) := by
    unfold _get_original_invite_snapshot
    rw [hnorm]
    simp [truthyO, hne, hr]
  have hmatch := (List.mem_filter.mp hmem).2
  unfold anchorMatch at hmatch
  simp only [Bool.and_eq_true, Bool.or_eq_true, beq_iff_eq] at hmatch
  refine ⟨r, hmem, hsnap, hmatch.2, ?_, ?_, ?_⟩
  · rcases hmatch.2 with h | h <;> simp [h]
  · rcases hmatch.2 with h | h <;> simp [h]
  · intro x hx
    exact hmax x hx

/-- Claim C6 witness: with a `redeem_code` entry (day 10) and a `payment`
entry (day 5) for the same email, the anchor exists, is one of them, and
dominates both in `(invited_at, id)` order. -/
theorem claim6_witness :
    (¬ (plower (pstrip "u@x.com") = "")) ∧
    ((⟨[], [], [⟨1, "u@x.com", "redeem_code", some "abc", none, none, none,
        none, some 1, none, false, 10⟩,
      ⟨2, "u@x.com", "payment", none, some "O1", none, none, none, some 1,
        none, false, 5⟩], []⟩ : DB).invites.filter
      (anchorMatch (plower (pstrip "u@x.com"))) ≠ []) ∧
    (∃ r ∈ (⟨[], [], [⟨1, "u@x.com", "redeem_code", some "abc", none, none,
        none, none, some 1, none, false, 10⟩,
      ⟨2, "u@x.com", "payment", none, some "O1", none, none, none, some 1,
        none, false, 5⟩], []⟩ : DB).invites.filter
        (anchorMatch (plower (pstrip "u@x.com"))),
      _get_original_invite_snapshot
        ⟨[], [], [⟨1, "u@x.com", "redeem_code", some "abc", none, none, none,
          none, some 1, none, false, 10⟩,
        ⟨2, "u@x.com", "payment", none, some "O1", none, none, none, some 1,
          none, false, 5⟩], []⟩ (some "u@x.com") none =
        some (snapOfInvite [] r) ∧
      (r.source_type = "redeem_code" ∨ r.source_type = "payment") ∧
      ¬ (r.source_type = "after_sales") ∧ ¬ (r.source_type = "admin_manual") ∧
      ∀ x ∈ (⟨[], [], [⟨1, "u@x.com", "redeem_code", some "abc", none, none,
          none, none, some 1, none, false, 10⟩,
        ⟨2, "u@x.com", "payment", none, some "O1", none, none, none, some 1,
          none, false, 5⟩], []⟩ : DB).invites.filter
          (anchorMatch (plower (pstrip "u@x.com"))),
        x.invited_at < r.invited_at ∨
          (x.invited_at = r.invited_at ∧ x.id ≤ r.id)) := by
  refine ⟨by decide, by decide, ?_⟩
  exact claim6_anchor_selection _ "u@x.com" (by decide) (by decide)

/-- Claim C7 counterexample: with the anchor's stored source code
`" abc"` (leading space) and caller code `"abc "`, `validate_warranty_reuse`
grants reuse — the comparison trims both sides — although the trimmed caller
code `"abc"` is not character-for-character equal to the anchor's source
code `" abc"`. -/
theorem claim7_counterexample :
    (validate_warranty_reuse
      ⟨[⟨1, "T1", "acc-1", "banned", 1, 2, 1000⟩], [],
       [⟨1, "u@x.com", "redeem_code", some " abc", none, none, none, none,
         some 1, none, false, 0⟩], []⟩ 10 "abc " "u@x.com").can_reuse =
      true ∧
    (_get_original_invite_snapshot
      ⟨[⟨1, "T1", "acc-1", "banned", 1, 2, 1000⟩], [],
       [⟨1, "u@x.com", "redeem_code", some " abc", none, none, none, none,
         some 1, none, false, 0⟩], []⟩ (some "u@x.com") none).map
      (fun s => s.code) = some (some " abc") ∧
    ¬ (pstrip "abc " = " abc") := by
  refine ⟨rfl, rfl, by decide⟩

/-- Claim C7 (amended: the caller code and the anchor's source code are
compared after trimming **both**): whenever `validate_warranty_reuse`
returns `can_reuse = true`, the anchor snapshot exists, `now` is within its
30-day window, the team of the current (latest) grant is banned, the anchor
is redemption-code sourced with a non-empty trimmed code, and the trimmed
caller code equals the trimmed anchor code. -/
theorem claim7_validate_reuse (db : DB) (now : Int) (code email : String)
    (h : (validate_warranty_reuse db now code email).can_reuse = true) :
    ∃ snap cur : Snapshot,
      _get_original_invite_snapshot db
        (if email == "" then none else some (plower (pstrip email))) none =
        some snap ∧
      (_get_current_invite_snapshot db
          (if truthyO (if email == "" then none
              else some (plower (pstrip email))) then
            (if email == "" then none else some (plower (pstrip email)))
          else some (plower (pstrip snap.email))) = some cur ∨
        (_get_current_invite_snapshot db
          (if truthyO (if email == "" then none
              else some (plower (pstrip email))) then
            (if email == "" then none else some (plower (pstrip email)))
          else some (plower (pstrip snap.email))) = none ∧ cur = snap)) ∧
      cur.team_status = some "banned" ∧
      now ≤ snap.invited_at + 30 * 86400 ∧
      snap.source_type = "redeem_code" ∧
      ¬ (pstrip (snap.code.getD "") = "") ∧
      pstrip code = pstrip (snap.code.getD "") := by
  simp only [validate_warranty_reuse] at h
  cases horig : _get_original_invite_snapshot db
      (if email == "" then none else some (plower (pstrip email))) none with
  | none =>
      rw [horig] at h
      simp at h
  | some snap =>
      rw [horig] at h
      simp only [Option.getD_some] at h
      refine ⟨snap, (_get_current_invite_snapshot db
        (if truthyO (if email == "" then none
            else some (plower (pstrip email))) then
          (if email == "" then none else some (plower (pstrip email)))
        else some (plower (pstrip snap.email)))).getD snap, rfl, ?_, ?_⟩
      · have hgen : ∀ (o : Option Snapshot) (d : Snapshot),
            o = some (o.getD d) ∨ (o = none ∧ o.getD d = d) := by
          intro o d
          cases o with
          | none => exact Or.inr ⟨rfl, rfl⟩
          | some c => exact Or.inl rfl
        exact hgen _ snap
      · by_cases h1 : (_judge_after_sales now (some snap.invited_at)
            ((_get_current_invite_snapshot db
              (if truthyO (if email == "" then none
                  else some (plower (pstrip email))) then
                (if email == "" then none else some (plower (pstrip email)))
              else some (plower (pstrip snap.email)))).getD
              snap).team_status).status = "expired"
        · rw [if_pos h1] at h
          simp at h
        · rw [if_neg h1] at h
          by_cases h2 : ((_get_current_invite_snapshot db
              (if truthyO (if email == "" then none
                  else some (plower (pstrip email))) then
                (if email == "" then none else some (plower (pstrip email)))
              else some (plower (pstrip snap.email)))).getD
              snap).team_status = some "banned"
          · rw [if_neg (by simpa using h2)] at h
            by_cases h3 : ¬ (snap.source_type = "redeem_code") ∨
                pstrip (snap.code.getD "") = ""
            · rw [if_pos h3] at h
              simp at h
            · rw [if_neg h3] at h
              push_neg at h3
              by_cases h4 : pstrip (snap.code.getD "") = pstrip code
              · have hw : now ≤ snap.invited_at + 30 * 86400 := by
                  by_contra hc
                  apply h1
                  have hgt : snap.invited_at + 2592000 < now := by omega
                  simp [_judge_after_sales, THIRTY_DAYS, hgt]
                exact ⟨h2, hw, h3.1, h3.2, h4.symm⟩
              · rw [if_pos h4] at h
                simp at h
          · rw [if_pos (by simpa using h2)] at h
            simp at h

/-- Claim C7 witness: a clean stored code `"abc"` with caller code `"abc"`,
a banned team and an in-window anchor yields `can_reuse = true`, and the
amended theorem recovers all the conditions. -/
theorem claim7_witness :
    (validate_warranty_reuse
      ⟨[⟨1, "T1", "acc-1", "banned", 1, 2, 1000⟩], [],
       [⟨1, "u@x.com", "redeem_code", some "abc", none, none, none, none,
         some 1, none, false, 0⟩], []⟩ 10 "abc" "u@x.com").can_reuse =
      true ∧
    (∃ snap cur : Snapshot,
      _get_original_invite_snapshot
        ⟨[⟨1, "T1", "acc-1", "banned", 1, 2, 1000⟩], [],
         [⟨1, "u@x.com", "redeem_code", some "abc", none, none, none, none,
           some 1, none, false, 0⟩], []⟩
        (if ("u@x.com" : String) == "" then none
          else some (plower (pstrip "u@x.com"))) none = some snap ∧
      (_get_current_invite_snapshot
          ⟨[⟨1, "T1", "acc-1", "banned", 1, 2, 1000⟩], [],
           [⟨1, "u@x.com", "redeem_code", some "abc", none, none, none, none,
             some 1, none, false, 0⟩], []⟩
          (if truthyO (if ("u@x.com" : String) == "" then none
              else some (plower (pstrip "u@x.com"))) then
            (if ("u@x.com" : String) == "" then none
              else some (plower (pstrip "u@x.com")))
          else some (plower (pstrip snap.email))) = some cur ∨
        (_get_current_invite_snapshot
          ⟨[⟨1, "T1", "acc-1", "banned", 1, 2, 1000⟩], [],
           [⟨1, "u@x.com", "redeem_code", some "abc", none, none, none, none,
             some 1, none, false, 0⟩], []⟩
          (if truthyO (if ("u@x.com" : String) == "" then none
              else some (plower (pstrip "u@x.com"))) then
            (if ("u@x.com" : String) == "" then none
              else some (plower (pstrip "u@x.com")))
          else some (plower (pstrip snap.email))) = none ∧ cur = snap)) ∧
      cur.team_status = some "banned" ∧
      (10 : Int) ≤ snap.invited_at + 30 * 86400 ∧
      snap.source_type = "redeem_code" ∧
      ¬ (pstrip (snap.code.getD "") = "") ∧
      pstrip "abc" = pstrip (snap.code.getD "")) := by
  refine ⟨rfl, ?_⟩
  exact claim7_validate_reuse _ 10 "abc" "u@x.com" rfl

end TM
